import Mathlib

/-!
Verification development for the WhatsApp order-bot repository (`app.py`).

The Python source is shallowly embedded: every definition below is a direct
translation of the function of the same name in `app.py`.  Text is modelled as
`String`/`List Char` over Unicode code points; Python `int` is `ℤ` (quantities
extracted from text are `ℕ`, since they come from digit strings or from the
number-word parser); Python `float` scores are modelled as `ℚ`; fallible code
(Python exceptions) returns `Option`.  String literals from the source are
reproduced byte-for-byte via `\uXXXX` escapes; note that the source file is
double-encoded (mojibake), e.g. the catalog entry `limÃ£o`, and the embedding
keeps those exact code points because that is what the running Python reads.

Unicode case folding and NFD decomposition (`normalize` in the source uses
`str.lower` and `unicodedata.normalize('NFD', ...)` with combining marks
removed) are modelled for the Latin-1/Latin-Extended characters that occur in
this repository's catalog, messages and tests; ASCII is handled exactly.
-/

set_option maxRecDepth 100000
set_option maxHeartbeats 2000000

unseal Rat.mul Rat.add Rat.sub Rat.inv

namespace OrderBot

/-- Whitespace class used by Python `str.strip`, `str.split()` and `\s`. -/
def isPySpace (c : Char) : Bool :=
  c = ' ' ∨ c = '\t' ∨ c = '\n' ∨ c = '\x0d' ∨ c = '\x0b' ∨ c = '\x0c'

/-- Python `str.lower`, restricted to ASCII and the Latin-1 letters that occur
in this repository (`A`–`Z` and `À`–`Þ` except `×` map to the code point 32
higher, everything else is unchanged). -/
def pyLowerChar (c : Char) : Char :=
  if 'A' ≤ c ∧ c ≤ 'Z' then Char.ofNat (c.toNat + 32)
  else if 0xC0 ≤ c.toNat ∧ c.toNat ≤ 0xDE ∧ c.toNat ≠ 0xD7 then Char.ofNat (c.toNat + 32)
  else c

/-- Combining diacritical marks (Unicode category `Mn` for the block used by
Portuguese text); `normalize` removes these after NFD decomposition. -/
def isCombiningMark (c : Char) : Bool :=
  0x300 ≤ c.toNat ∧ c.toNat ≤ 0x36F

/-- NFD decomposition followed by removal of combining marks, as a map on the
base character: an accented lower-case Latin letter becomes its base letter,
every other character (including `£ § ¡ º` and the soft hyphen, which have no
canonical decomposition) is unchanged. -/
def stripDiacritic (c : Char) : Char :=
  let n := c.toNat
  if 0xE0 ≤ n ∧ n ≤ 0xE5 then 'a'
  else if n = 0xE7 then 'c'
  else if 0xE8 ≤ n ∧ n ≤ 0xEB then 'e'
  else if 0xEC ≤ n ∧ n ≤ 0xEF then 'i'
  else if n = 0xF1 then 'n'
  else if 0xF2 ≤ n ∧ n ≤ 0xF6 then 'o'
  else if 0xF9 ≤ n ∧ n ≤ 0xFC then 'u'
  else if n = 0xFD ∨ n = 0xFF then 'y'
  else if n = 0x161 then 's'
  else c

/-- One character of `unicodedata.normalize('NFD', text)` with category-`Mn`
characters filtered out. -/
def nfdStrip (c : Char) : List Char :=
  if isCombiningMark c then [] else [stripDiacritic c]

/-- Python `str.strip()` (whitespace at both ends). -/
def pyStrip (s : List Char) : List Char :=
  ((s.dropWhile isPySpace).reverse.dropWhile isPySpace).reverse

/-- `normalize(text)` from `app.py`: lower-case, NFD with combining marks
removed, then `strip()`. -/
def normalize (s : String) : String :=
  String.mk (pyStrip ((s.data.map pyLowerChar).flatMap nfdStrip))

/-- Substitution cost of the Levenshtein recurrence (`cost` in `app.py`). -/
def levCost (x y : Char) : Nat := if x = y then 0 else 1

/-- Reference (textbook) Levenshtein recursion, consuming the two lists from
the front.  Used only to prove properties of the dynamic-programming table
`levenshtein_distance` below; the nesting of `min` matches the `min(...)`
call of the source. -/
def levRec : List Char → List Char → Nat
  | [], ys => ys.length
  | x :: xs, [] => (x :: xs).length
  | x :: xs, y :: ys =>
      min (min (levRec xs (y :: ys) + 1) (levRec (x :: xs) ys + 1))
          (levRec xs ys + levCost x y)
termination_by xs ys => xs.length + ys.length
decreasing_by all_goals simp +arith

/-- One row of the DP table of `levenshtein_distance`, cells `j = 1 … n`:
`p0 :: p1 :: ps` is the suffix of the previous row starting at column `j-1`
and `left` is the value just written at column `j-1` of the current row, so
the new cell is `min(dp[i-1][j] + 1, dp[i][j-1] + 1, dp[i-1][j-1] + cost)`
exactly as in the source's inner loop. -/
def levStep (x : Char) : List Char → List Nat → Nat → List Nat
  | y :: ys, p0 :: p1 :: ps, left =>
      min (min (p1 + 1) (left + 1)) (p0 + levCost x y) ::
        levStep x ys (p1 :: ps) (min (min (p1 + 1) (left + 1)) (p0 + levCost x y))
  | _, _, _ => []

/-- The outer loop of the DP of `levenshtein_distance`: one iteration per
character of `a`, carrying the current row; `dp[i][0] = i` is the first cell
of each new row, as set by the source's initialisation loop. -/
def levLoop (b : List Char) : List Char → Nat → List Nat → List Nat
  | [], _, row => row
  | x :: xs, i, row => levLoop b xs (i + 1) ((i + 1) :: levStep x b row (i + 1))

/-- `levenshtein_distance(a, b)` from `app.py`: the early returns for empty
inputs, then the row-by-row dynamic-programming table whose final answer is
`dp[m][n]`, the last cell of the last row (row 0 is `0, 1, …, n`). -/
def levenshtein_distance (a b : List Char) : Nat :=
  if a.length = 0 then b.length
  else if b.length = 0 then a.length
  else (levLoop b a 0 (List.range (b.length + 1))).getLastD 0

/-- `similarity_percentage(a, b)` from `app.py`: normalize both strings, and
return `(1 - distance/max_len) * 100` (in `ℚ`), or `100` when both are empty. -/
def similarity_percentage (a b : String) : ℚ :=
  let a' := (normalize a).data
  let b' := (normalize b).data
  let distance := levenshtein_distance a' b'
  let max_len := max a'.length b'.length
  if max_len = 0 then 100
  else (1 - (distance : ℚ) / (max_len : ℚ)) * 100

/-- Python `round(x, 2)` as used on similarity scores, modelled on `ℚ` as
round-half-up to two decimals (the source rounds binary floats half-to-even;
the two agree on every score that actually arises in this development, none
of which is a tie at the third decimal). -/
def round2 (q : ℚ) : ℚ := ((Rat.floor (q * 100 + 1 / 2) : ℤ) : ℚ) / 100

theorem levRec_nil_left (ys : List Char) : levRec [] ys = ys.length := by
  cases ys <;> simp [levRec]

theorem levRec_nil_right (xs : List Char) : levRec xs [] = xs.length := by
  cases xs <;> simp [levRec]

theorem levRec_cons_cons (x y : Char) (xs ys : List Char) :
    levRec (x :: xs) (y :: ys) =
      min (min (levRec xs (y :: ys) + 1) (levRec (x :: xs) ys + 1))
          (levRec xs ys + levCost x y) := by
  rw [levRec]

theorem levCost_comm (x y : Char) : levCost x y = levCost y x := by
  simp only [levCost, eq_comm]

theorem levRec_comm (xs : List Char) : ∀ ys : List Char, levRec xs ys = levRec ys xs := by
  induction xs with
  | nil => intro ys; rw [levRec_nil_left, levRec_nil_right]
  | cons x xs ih =>
    intro ys
    induction ys with
    | nil => rw [levRec_nil_left, levRec_nil_right]
    | cons y ys ihy =>
      rw [levRec_cons_cons, levRec_cons_cons, ih (y :: ys), ih ys, ihy, levCost_comm]
      omega

theorem levRec_self (xs : List Char) : levRec xs xs = 0 := by
  induction xs with
  | nil => rw [levRec_nil_left]; rfl
  | cons x xs ih =>
    rw [levRec_cons_cons, ih]
    simp [levCost]

/-- Specification of the rows of the DP table: the cells `j = 1 … n` of the
row for the (reversed) prefix `u` of `a`, where `w` is the reversed prefix of
`b` consumed so far: cell `j` holds the edit distance between the prefixes,
i.e. `levRec u ((b.take j).reverse)`. -/
def cells (u : List Char) : List Char → List Char → List Nat
  | _, [] => []
  | w, y :: ys => levRec u (y :: w) :: cells u (y :: w) ys

theorem levStep_spec (x : Char) (u : List Char) :
    ∀ (ys w : List Char),
      levStep x ys (levRec u w :: cells u w ys) (levRec (x :: u) w) =
        cells (x :: u) w ys := by
  intro ys
  induction ys with
  | nil => intro w; rfl
  | cons y ys ih =>
    intro w
    have hc : min (min (levRec u (y :: w) + 1) (levRec (x :: u) w + 1))
        (levRec u w + levCost x y) = levRec (x :: u) (y :: w) :=
      (levRec_cons_cons x y u w).symm
    show levStep x (y :: ys)
        (levRec u w :: levRec u (y :: w) :: cells u (y :: w) ys)
        (levRec (x :: u) w) = cells (x :: u) w (y :: ys)
    rw [levStep, hc, ih (y :: w)]
    rfl

theorem levLoop_spec (b : List Char) :
    ∀ (xs u : List Char),
      levLoop b xs u.length (levRec u [] :: cells u [] b) =
        levRec (xs.reverse ++ u) [] :: cells (xs.reverse ++ u) [] b := by
  intro xs
  induction xs with
  | nil => intro u; simp [levLoop]
  | cons x xs ih =>
    intro u
    show levLoop b xs (u.length + 1)
        ((u.length + 1) :: levStep x b (levRec u [] :: cells u [] b) (u.length + 1)) = _
    have h1 : u.length + 1 = levRec (x :: u) [] := by
      rw [levRec_nil_right]; rfl
    rw [h1, levStep_spec x u b []]
    rw [levRec_nil_right]
    have hih := ih (x :: u)
    rw [levRec_nil_right] at hih
    rw [hih]
    have h3 : xs.reverse ++ x :: u = (x :: xs).reverse ++ u := by
      simp
    rw [h3]

theorem cells_nil_left (ys : List Char) :
    ∀ w : List Char, cells [] w ys = List.range' (w.length + 1) ys.length := by
  induction ys with
  | nil => intro w; rfl
  | cons y ys ih =>
    intro w
    show levRec [] (y :: w) :: cells [] (y :: w) ys = _
    rw [levRec_nil_left, ih (y :: w)]
    show (y :: w).length :: List.range' ((y :: w).length + 1) ys.length =
      List.range' (w.length + 1) (ys.length + 1)
    rw [List.range'_succ]
    rfl

theorem range_eq_row (b : List Char) :
    List.range (b.length + 1) = levRec [] [] :: cells [] [] b := by
  rw [levRec_nil_left, cells_nil_left b []]
  rw [List.range_eq_range', List.range'_succ]
  rfl

theorem row_getLastD (u : List Char) :
    ∀ (ys w : List Char) (d : Nat),
      (levRec u w :: cells u w ys).getLastD d = levRec u (ys.reverse ++ w) := by
  intro ys
  induction ys with
  | nil => intro w d; rfl
  | cons y ys ih =>
    intro w d
    show (levRec u w :: levRec u (y :: w) :: cells u (y :: w) ys).getLastD d = _
    rw [List.getLastD_cons, List.getLastD_cons]
    have := ih (y :: w) (levRec u w)
    rw [List.getLastD_cons] at this
    rw [this]
    congr 1
    simp

theorem levenshtein_eq_levRec (a b : List Char) :
    levenshtein_distance a b = levRec a.reverse b.reverse := by
  unfold levenshtein_distance
  by_cases ha : a.length = 0
  · have : a = [] := List.length_eq_zero.mp ha
    subst this
    simp [levRec_nil_left]
  · rw [if_neg ha]
    by_cases hb : b.length = 0
    · have : b = [] := List.length_eq_zero.mp hb
      subst this
      simp [levRec_nil_right]
    · rw [if_neg hb]
      rw [range_eq_row b]
      have hl := levLoop_spec b a []
      simp only [List.length_nil] at hl
      rw [hl]
      have hg := row_getLastD (a.reverse ++ []) b [] 0
      rw [hg]
      simp

theorem levenshtein_distance_comm (a b : List Char) :
    levenshtein_distance a b = levenshtein_distance b a := by
  rw [levenshtein_eq_levRec, levenshtein_eq_levRec, levRec_comm]

theorem levenshtein_distance_self (a : List Char) : levenshtein_distance a a = 0 := by
  rw [levenshtein_eq_levRec, levRec_self]

/-- The `units` dictionary of `app.py` (the source lists `"tres": 3` twice;
a Python dict keeps a single entry, kept once here). -/
def units : List (String × Nat) :=
  [("0", 0), ("1", 1), ("2", 2), ("3", 3), ("4", 4), ("5", 5), ("6", 6), ("7", 7),
   ("8", 8), ("9", 9),
   ("zero", 0), ("um", 1), ("uma", 1), ("dois", 2), ("duas", 2), ("dos", 2),
   ("tres", 3), ("treis", 3),
   ("quatro", 4), ("quarto", 4), ("cinco", 5), ("cnico", 5), ("seis", 6), ("ses", 6),
   ("sete", 7), ("oito", 8), ("nove", 9), ("nov", 9)]

/-- The `teens` dictionary of `app.py`. -/
def teens : List (String × Nat) :=
  [("dez", 10), ("onze", 11), ("doze", 12), ("treze", 13), ("quatorze", 14),
   ("catorze", 14), ("quinze", 15), ("dezesseis", 16), ("dezessete", 17),
   ("dezoito", 18), ("dezenove", 19)]

/-- The `tens` dictionary of `app.py`. -/
def tens : List (String × Nat) :=
  [("vinte", 20), ("trinta", 30), ("quarenta", 40), ("cinquenta", 50),
   ("sessenta", 60), ("setenta", 70), ("oitenta", 80), ("noventa", 90)]

/-- The `hundreds` dictionary of `app.py`. -/
def hundreds : List (String × Nat) :=
  [("cem", 100), ("cento", 100), ("duzentos", 200), ("trezentos", 300),
   ("quatrocentos", 400), ("quinhentos", 500), ("seiscentos", 600),
   ("setecentos", 700), ("oitocentos", 800), ("novecentos", 900)]

/-- Dictionary lookup (`d[w]` / `w in d`); key sets of the four dictionaries
are pairwise disjoint, so concatenation models the `{**a, **b}` merge. -/
def lookupWord (d : List (String × Nat)) (w : String) : Option Nat :=
  (d.find? (fun e => e.1 = w)).map (fun e => e.2)

/-- `word2num_all = {**units, **teens, **tens, **hundreds}`. -/
def word2num_all : List (String × Nat) := units ++ teens ++ tens ++ hundreds

/-- `w in d` for the dictionaries above. -/
def memWord (d : List (String × Nat)) (w : String) : Bool :=
  (lookupWord d w).isSome

/-- `d[w]` with default 0 (every use in the source is guarded by `w in d`). -/
def valWord (d : List (String × Nat)) (w : String) : Nat :=
  (lookupWord d w).getD 0

/-- Python `str.isdigit()` restricted to ASCII decimal digits (no other digit
characters occur in this repository's inputs): nonempty and all digits. -/
def pyIsDigit (s : String) : Bool :=
  !s.data.isEmpty && s.data.all Char.isDigit

/-- Python `int(s)` for a string of ASCII digits. -/
def strToNat (s : String) : Nat :=
  s.data.foldl (fun n c => n * 10 + (c.toNat - 48)) 0

/-- The `while` loop of `parse_number_words`, accumulating `total`:
hundreds are added; a tens word absorbs an immediately following units word
(consuming both tokens); teens and units are added; any other token is
skipped.  The one-token case is the loop body with the `i + 1 < len(tokens)`
look-ahead necessarily failing. -/
def parse_number_words_total : List String → Nat
  | [] => 0
  | [t] =>
    if memWord hundreds t then valWord hundreds t
    else if memWord tens t then valWord tens t
    else if memWord teens t then valWord teens t
    else if memWord units t then valWord units t
    else 0
  | t :: t2 :: rest =>
    if memWord hundreds t then valWord hundreds t + parse_number_words_total (t2 :: rest)
    else if memWord tens t then
      if memWord units t2 then
        (valWord tens t + valWord units t2) + parse_number_words_total rest
      else valWord tens t + parse_number_words_total (t2 :: rest)
    else if memWord teens t then valWord teens t + parse_number_words_total (t2 :: rest)
    else if memWord units t then valWord units t + parse_number_words_total (t2 :: rest)
    else parse_number_words_total (t2 :: rest)

/-- `parse_number_words(tokens)` from `app.py`: `None` when the total is 0. -/
def parse_number_words (tokens : List String) : Option Nat :=
  let total := parse_number_words_total tokens
  if total > 0 then some total else none

/-- `[a-zA-Z]` of the two digit/letter regexes in `separate_numbers_and_words`. -/
def isAsciiAlpha (c : Char) : Bool :=
  ('a' ≤ c ∧ c ≤ 'z') ∨ ('A' ≤ c ∧ c ≤ 'Z')

/-- `re.sub(r"(\d+)([a-zA-Z])", r"\1 \2", text)`: insert a space at every
boundary where a digit is immediately followed by an ASCII letter. -/
def splitDigitAlpha : List Char → List Char
  | [] => []
  | [c] => [c]
  | c1 :: c2 :: rest =>
    if c1.isDigit ∧ isAsciiAlpha c2 then c1 :: ' ' :: splitDigitAlpha (c2 :: rest)
    else c1 :: splitDigitAlpha (c2 :: rest)

/-- `re.sub(r"([a-zA-Z])(\d+)", r"\1 \2", text)`: insert a space at every
boundary where an ASCII letter is immediately followed by a digit. -/
def splitAlphaDigit : List Char → List Char
  | [] => []
  | [c] => [c]
  | c1 :: c2 :: rest =>
    if isAsciiAlpha c1 ∧ c2.isDigit then c1 :: ' ' :: splitAlphaDigit (c2 :: rest)
    else c1 :: splitAlphaDigit (c2 :: rest)

/-- Python `str.replace(pat, rep)`, fuel-indexed: each step either copies one
character or consumes a whole (nonempty) match of `pat`, so `s.length + 1`
steps always suffice and the fuel of the wrapper `replaceSub` below never
runs out.  Structural recursion on the fuel keeps the function reducible by
the kernel (`decide`/`rfl`). -/
def replaceSubGo (pat rep : List Char) : Nat → List Char → List Char
  | 0, s => s
  | _ + 1, [] => []
  | fuel + 1, c :: cs =>
    match pat with
    | [] => c :: cs
    | p :: ps =>
      if (p :: ps).isPrefixOf (c :: cs) then
        rep ++ replaceSubGo pat rep fuel (cs.drop ps.length)
      else c :: replaceSubGo pat rep fuel cs

/-- Python `str.replace(pat, rep)`: left-to-right, non-overlapping (every
use in the source has a nonempty `pat`). -/
def replaceSub (s : List Char) (pat rep : List Char) : List Char :=
  replaceSubGo pat rep (s.length + 1) s

/-- `\w` of the regex word boundary `\b`, for the ASCII text that reaches
`separate_numbers_and_words` in this repository (the message is normalized
first, so accents are already folded). -/
def isWordChar (c : Char) : Bool := c.isAlphanum || c = '_'

/-- Whether the character right after a match of `w` at the start of `s` is a
non-word character (or the match reaches the end), i.e. the trailing `\b`. -/
def afterBoundaryOk (w s : List Char) : Bool :=
  match s.drop w.length with
  | [] => true
  | r :: _ => !isWordChar r

/-- Scanner for `re.sub(rf"\b{w}\b", f" {w} ", text)` with `w` a number word:
replace every whole-word occurrence of `w` by the same word wrapped in
spaces. `prev` says whether the character just before the current position is
a word character (`False` at the start of the string). -/
def wrapWordGo (w0 : Char) (wrest : List Char) : Nat → Bool → List Char → List Char
  | 0, _, s => s
  | _ + 1, _, [] => []
  | fuel + 1, prev, c :: cs =>
    if !prev && (w0 :: wrest).isPrefixOf (c :: cs) && afterBoundaryOk (w0 :: wrest) (c :: cs) then
      ' ' :: (w0 :: wrest) ++ ' ' :: wrapWordGo w0 wrest fuel true (cs.drop wrest.length)
    else c :: wrapWordGo w0 wrest fuel (isWordChar c) cs

/-- `re.sub(rf"\b{re.escape(w)}\b", f" {w} ", text)` for a single word `w`:
each scanner step consumes at least one character, so `s.length + 1` fuel
always suffices. -/
def wrapWord (w : String) (s : List Char) : List Char :=
  match w.data with
  | [] => s
  | c :: cs => wrapWordGo c cs (s.length + 1) false s

/-- Stable insertion preserving the order of equal keys, used to model
Python's stable `sorted(..., key=..., reverse=True)`. -/
def insertByKeyDesc {α : Type} (key : α → Nat) (x : α) : List α → List α
  | [] => [x]
  | y :: ys => if key y ≥ key x then y :: insertByKeyDesc key x ys else x :: y :: ys

/-- Python `sorted(l, key=key, reverse=True)` (stable, descending). -/
def sortByKeyDesc {α : Type} (key : α → Nat) (l : List α) : List α :=
  l.foldl (fun acc x => insertByKeyDesc key x acc) []

/-- `re.sub(r"\s+", " ", text)`: collapse whitespace runs to single spaces
(`inRun` records whether the previous character was whitespace, i.e. whether
the single space for the current run has already been emitted). -/
def collapseWsGo : Bool → List Char → List Char
  | _, [] => []
  | inRun, c :: cs =>
    if isPySpace c then
      if inRun then collapseWsGo true cs else ' ' :: collapseWsGo true cs
    else c :: collapseWsGo false cs

/-- `re.sub(r"\s+", " ", text)`. -/
def collapseWs (s : List Char) : List Char := collapseWsGo false s

/-- The `protected_teens` list of `separate_numbers_and_words`. -/
def protected_teens : List String := ["dezesseis", "dezessete", "dezoito", "dezenove"]

/-- `separate_numbers_and_words(text)` from `app.py`: lower-case, split
digit/letter boundaries both ways, wrap compound teen words via plain
substring replacement, wrap every other number word (keys processed longest
first, Python's sort being stable) via word-boundary substitution, then
collapse whitespace and strip. -/
def separate_numbers_and_words (s : String) : String :=
  let text := s.data.map pyLowerChar
  let text := splitDigitAlpha text
  let text := splitAlphaDigit text
  let text := protected_teens.foldl
    (fun t teen => replaceSub t teen.data (' ' :: teen.data ++ [' '])) text
  let keys := sortByKeyDesc (fun w => w.length) (word2num_all.map (fun e => e.1))
  let text := keys.foldl
    (fun t w => if protected_teens.contains w then t else wrapWord w t) text
  String.mk (pyStrip (collapseWs text))

/-- Python `str.split()`: split on whitespace runs, dropping empty pieces
(`cur` is the current in-progress token, reversed). -/
def splitWsAux : List Char → List Char → List String
  | [], cur => if cur.isEmpty then [] else [String.mk cur.reverse]
  | c :: cs, cur =>
    if isPySpace c then
      if cur.isEmpty then splitWsAux cs [] else String.mk cur.reverse :: splitWsAux cs []
    else splitWsAux cs (c :: cur)

/-- Python `str.split()`. -/
def splitWs (s : List Char) : List String := splitWsAux s []

/-- `tokens[i]` of the source, as a total function (every access in the
source is guarded by a bounds check). -/
def tokGet (tokens : List String) (i : Nat) : String := tokens.getD i ""

/-- The inner `while` of `extract_numbers_and_positions`, fuel-indexed
(each iteration advances `j` by 2, so `tokens.length + 1` fuel always
suffices): starting at index `j`, keep consuming `"e" <number-word>` pairs
while `j < len(tokens) - 1`; returns the final `j` together with the number
words collected (the source also collects the `"e"` tokens but filters them
out before parsing). -/
def scanRunGo (tokens : List String) : Nat → Nat → Nat × List String
  | 0, j => (j, [])
  | fuel + 1, j =>
    if j < tokens.length - 1 then
      if tokGet tokens j = "e" ∧ memWord word2num_all (tokGet tokens (j + 1)) then
        let r := scanRunGo tokens fuel (j + 2)
        (r.1, tokGet tokens (j + 1) :: r.2)
      else (j, [])
    else (j, [])

/-- The inner `while` of `extract_numbers_and_positions`. -/
def scanRun (tokens : List String) (j : Nat) : Nat × List String :=
  scanRunGo tokens (tokens.length + 1) j

/-- The main loop of `extract_numbers_and_positions`, fuel-indexed (each
iteration advances `i` by at least 1, so `tokens.length + 1` fuel always
suffices): a digit token is a number at its position; a number-word token
starts a run extended through `"e"`, parsed by `parse_number_words` (a run
parsing to 0 or failing is discarded and the scan resumes at the next
token). -/
def extractLoop (tokens : List String) : Nat → Nat → List (Nat × Nat)
  | 0, _ => []
  | fuel + 1, i =>
    if i < tokens.length then
      let t := tokGet tokens i
      if pyIsDigit t then (i, strToNat t) :: extractLoop tokens fuel (i + 1)
      else if memWord word2num_all t then
        let r := scanRun tokens (i + 1)
        match parse_number_words (t :: r.2) with
        | some n => (i, n) :: extractLoop tokens fuel r.1
        | none => extractLoop tokens fuel (i + 1)
      else extractLoop tokens fuel (i + 1)
    else []

/-- `extract_numbers_and_positions(tokens)` from `app.py`. -/
def extract_numbers_and_positions (tokens : List String) : List (Nat × Nat) :=
  extractLoop tokens (tokens.length + 1) 0

/-- Python `max(l, key=fst)` for a nonempty list: first element with maximal
first component (the fold replaces the best only on strictly greater keys). -/
def maxByFst (l : List (Nat × Nat)) : Option (Nat × Nat) :=
  match l with
  | [] => none
  | x :: xs => some (xs.foldl (fun b e => if e.1 > b.1 then e else b) x)

/-- Python `min(l, key=fst)` for a nonempty list: first element with minimal
first component. -/
def minByFst (l : List (Nat × Nat)) : Option (Nat × Nat) :=
  match l with
  | [] => none
  | x :: xs => some (xs.foldl (fun b e => if e.1 < b.1 then e else b) x)

/-- `find_associated_number(product_position, all_tokens, numbers_with_positions)`
from `app.py`: the four positional patterns in order, else quantity 1 with no
position. -/
def find_associated_number (product_position : Nat) (all_tokens : List String)
    (numbers_with_positions : List (Nat × Nat)) : Nat × Option Nat :=
  if numbers_with_positions.isEmpty then (1, none)
  else
    let pattern1 : Option (Nat × Nat) :=
      if product_position > 0 then
        let prev_token := tokGet all_tokens (product_position - 1)
        if pyIsDigit prev_token ∨ memWord word2num_all prev_token then
          numbers_with_positions.find? (fun e => e.1 = product_position - 1)
        else none
      else none
    match pattern1 with
    | some e => (e.2, some e.1)
    | none =>
      let numbers_before := numbers_with_positions.filter (fun e => e.1 < product_position)
      match maxByFst numbers_before with
      | some e => (e.2, some e.1)
      | none =>
        let pattern3 : Option (Nat × Nat) :=
          if product_position + 1 < all_tokens.length then
            let next_token := tokGet all_tokens (product_position + 1)
            if pyIsDigit next_token ∨ memWord word2num_all next_token then
              numbers_with_positions.find? (fun e => e.1 = product_position + 1)
            else none
          else none
        match pattern3 with
        | some e => (e.2, some e.1)
        | none =>
          let numbers_after := numbers_with_positions.filter (fun e => e.1 > product_position)
          match minByFst numbers_after with
          | some e => (e.2, some e.1)
          | none => (1, none)

/-- The `if number_position is not None and number_position in used_numbers`
block that follows both calls of `find_associated_number` in
`parse_order_interactive`: when the chosen position was already used, take
the first number (in list order) whose position is unused; when there is
none, the original (already used) choice is kept. -/
def reassignNumber (numbers_with_positions : List (Nat × Nat)) (used_numbers : List Nat)
    (quantity : Nat) (number_position : Option Nat) : Nat × Option Nat :=
  match number_position with
  | none => (quantity, none)
  | some p =>
    if used_numbers.contains p then
      match numbers_with_positions.find? (fun e => !used_numbers.contains e.1) with
      | some e => (e.2, some e.1)
      | none => (quantity, some p)
    else (quantity, some p)

/-- One parsed order line (`{"product": ..., "qty": ..., "score": ...}`). -/
structure ParsedLine where
  product : String
  qty : Nat
  score : ℚ
deriving DecidableEq, Repr

/-- `working_db[idx][1] += quantity`. -/
def updAdd (db : List (String × Int)) (idx : Nat) (q : Nat) : List (String × Int) :=
  match db, idx with
  | [], _ => []
  | e :: rest, 0 => (e.1, e.2 + (q : Int)) :: rest
  | e :: rest, n + 1 => e :: updAdd rest n q

/-- The `filler_words` set of `parse_order_interactive`. -/
def filler_words : List String := ["quero", "e"]

/-- The best-match fold over a product list with indices: Python starts with
`best_score = 0`, `best_product = None` and replaces on strictly greater
scores, so the first maximum wins.  The score compares the phrase against
`normalize(prod_name)` exactly as in the source (`similarity_percentage`
normalizes again internally, which is idempotent). -/
def bestOf (prods : List (String × Nat)) (phrase_norm : String) : ℚ × Option (String × Nat) :=
  prods.foldl
    (fun best e =>
      let score := similarity_percentage phrase_norm (normalize e.1)
      if score > best.1 then (score, some e) else best)
    (0, none)

/-- Whether a token disqualifies a phrase in the window check of
`parse_order_interactive` (a number, a number word, or a filler word that is
not part of a product name). -/
def badPhraseToken (product_words : List String) (t : String) : Bool :=
  pyIsDigit t || memWord word2num_all t ||
    (filler_words.contains t && !product_words.contains t)

/-- The `for size in range(min(max_prod_words, 4), 0, -1)` loop of
`parse_order_interactive`: try window sizes longest first, skipping windows
that run off the end, reuse a consumed position, or contain a number/filler
token; return the first window whose best catalog match reaches the
threshold, as `(size, best_score, best_product, best_original_idx)`. -/
def trySizes (tokens : List String) (sorted_products : List (String × Nat))
    (product_words : List String) (used_positions : List Nat)
    (similarity_threshold : ℚ) (i : Nat) : Nat → Option (Nat × ℚ × String × Nat)
  | 0 => none
  | size + 1 =>
    let s := size + 1
    if i + s > tokens.length then
      trySizes tokens sorted_products product_words used_positions similarity_threshold i size
    else
      let skip_phrase := (List.range s).any
        (fun j => used_positions.contains (i + j) || badPhraseToken product_words (tokGet tokens (i + j)))
      if skip_phrase then
        trySizes tokens sorted_products product_words used_positions similarity_threshold i size
      else
        let phrase := " ".intercalate ((tokens.drop i).take s)
        let phrase_norm := normalize phrase
        match bestOf sorted_products phrase_norm with
        | (best_score, some e) =>
          if best_score ≥ similarity_threshold then some (s, best_score, e.1, e.2)
          else trySizes tokens sorted_products product_words used_positions similarity_threshold i size
        | (_, none) =>
          trySizes tokens sorted_products product_words used_positions similarity_threshold i size

/-- The pass-wide immutable data of the scanning loop of
`parse_order_interactive` (everything computed before `i = 0`). -/
structure ParseCtx where
  tokens : List String
  numbers_with_positions : List (Nat × Nat)
  sorted_products : List (String × Nat)
  enum_products : List (String × Nat)
  product_words : List String
  max_prod_words : Nat
  similarity_threshold : ℚ

/-- The `while i < len(tokens)` loop of `parse_order_interactive`: skip
consumed positions and filler/number tokens; at each remaining position try
windows longest-first against the threshold (`trySizes`); on a hit, resolve
the quantity (`find_associated_number` then the used-number reassignment
block), merge into the working catalog, record the line, consume the window
and the number, and jump past the window; otherwise fall back to the single
current token against the lower bar 50, committing the same way but
advancing by one; unmatched tokens are skipped silently.  Fuel-indexed:
every iteration advances `i` by at least 1 (a committed window has size at
least 1), so `tokens.length + 1` fuel always suffices. -/
def parseLoop (ctx : ParseCtx) : Nat → Nat → List Nat → List Nat →
    List (String × Int) → List ParsedLine → List ParsedLine × List (String × Int)
  | 0, _, _, _, working_db, parsed_orders => (parsed_orders, working_db)
  | fuel + 1, i, used_positions, used_numbers, working_db, parsed_orders =>
    if i < ctx.tokens.length then
      if used_positions.contains i then
        parseLoop ctx fuel (i + 1) used_positions used_numbers working_db parsed_orders
      else
        let token := tokGet ctx.tokens i
        if (filler_words.contains token && !ctx.product_words.contains token) ||
            (pyIsDigit token && !(ctx.numbers_with_positions.map Prod.fst).contains i) ||
            memWord word2num_all token then
          parseLoop ctx fuel (i + 1) used_positions used_numbers working_db parsed_orders
        else
          match trySizes ctx.tokens ctx.sorted_products ctx.product_words used_positions
              ctx.similarity_threshold i (min ctx.max_prod_words 4) with
          | some (size, best_score, best_product, best_original_idx) =>
            let fa := find_associated_number i ctx.tokens ctx.numbers_with_positions
            let qn := reassignNumber ctx.numbers_with_positions used_numbers fa.1 fa.2
            parseLoop ctx fuel (i + size)
              (used_positions ++ (List.range size).map (fun j => i + j))
              (match qn.2 with
               | some p => used_numbers ++ [p]
               | none => used_numbers)
              (updAdd working_db best_original_idx qn.1)
              (parsed_orders ++ [⟨best_product, qn.1, round2 best_score⟩])
          | none =>
            match bestOf ctx.enum_products (normalize (tokGet ctx.tokens i)) with
            | (best_score, some e) =>
              if best_score > 50 then
                let fa := find_associated_number i ctx.tokens ctx.numbers_with_positions
                let qn := reassignNumber ctx.numbers_with_positions used_numbers fa.1 fa.2
                parseLoop ctx fuel (i + 1)
                  (used_positions ++ [i])
                  (match qn.2 with
                   | some p => used_numbers ++ [p]
                   | none => used_numbers)
                  (updAdd working_db e.2 qn.1)
                  (parsed_orders ++ [⟨e.1, qn.1, round2 best_score⟩])
              else parseLoop ctx fuel (i + 1) used_positions used_numbers working_db parsed_orders
            | (_, none) =>
              parseLoop ctx fuel (i + 1) used_positions used_numbers working_db parsed_orders
    else (parsed_orders, working_db)

/-- The punctuation strip `re.sub(r"[,\.;\+\-\/\(\)\[\]\:]", " ", message)`. -/
def punctToSpace (s : List Char) : List Char :=
  s.map (fun c =>
    if c ∈ [',', '.', ';', '+', '-', '/', '(', ')', '[', ']', ':'] then ' ' else c)

/-- `parse_order_interactive(message, products_db, similarity_threshold=80,
uncertain_range=(60, 80))` from `app.py` (every call site uses the default
threshold 80; `uncertain_range` is never read in the function body).
Normalize and segment the message, extract numbers, and scan for products.
Returns `none` exactly when `products_db` is empty, where the Python
`max(len(p.split()) for p in product_names)` raises `ValueError`; otherwise
`some (parsed_orders, working_db)` with `working_db` the merged deep copy of
`products_db`. -/
def parse_order_interactive (message : String) (products_db : List (String × Int)) :
    Option (List ParsedLine × List (String × Int)) :=
  let similarity_threshold : ℚ := 80
  let message1 := normalize message
  let message2 := separate_numbers_and_words message1
  let message3 := String.mk (pyStrip (collapseWs (punctToSpace message2.data)))
  let tokens := splitWs message3.data
  let working_db := products_db
  let numbers_with_positions := extract_numbers_and_positions tokens
  let product_names := products_db.map Prod.fst
  let enum_products := product_names.enum.map (fun e => (e.2, e.1))
  let sorted_products := sortByKeyDesc (fun e => (splitWs e.1.data).length) enum_products
  match product_names with
  | [] => none
  | _ :: _ =>
    let max_prod_words := (product_names.map (fun p => (splitWs p.data).length)).foldl max 0
    let product_words := product_names.flatMap
      (fun p => (splitWs p.data).map (fun w => normalize w))
    some (parseLoop
      ⟨tokens, numbers_with_positions, sorted_products, enum_products, product_words,
        max_prod_words, similarity_threshold⟩
      (tokens.length + 1) 0 [] [] working_db [])

/-- The `products_db` catalog of `app.py`, byte-for-byte: the source file is
double-encoded, so the accented entries really are these mojibake code
points when Python loads the module. -/
def products_db : List (String × Int) :=
  [("lim\u00C3\u00A3o", 0),
   ("abacaxi", 0), ("abacaxi com hortel\u00C3\u00A3", 0), ("a\u00C3\u00A7a\u00C3\u00AD", 0),
   ("acerola", 0),
   ("ameixa", 0), ("caj\u00C3\u00A1", 0), ("caj\u00C3\u00BA", 0), ("goiaba", 0),
   ("graviola", 0),
   ("manga", 0), ("maracuj\u00C3\u00A1", 0), ("morango", 0), ("seriguela", 0),
   ("tamarindo", 0),
   ("caixa de ovos", 0), ("ovo", 0), ("queijo", 0)]

/-- Python `needle in hay` (substring containment). -/
def containsSub (needle : List Char) : List Char → Bool
  | [] => needle.isEmpty
  | c :: cs => needle.isPrefixOf (c :: cs) || containsSub needle cs

/-- The kind of the single scheduled callback a session may own
(`threading.Timer(5.0, self._send_summary)` or `..., self._send_reminder)`). -/
inductive TimerKind where
  | summary : TimerKind
  | reminder : TimerKind
deriving DecidableEq, Repr

/-- One row inserted by `_save_final_orders` into the `confirmed_orders`
table (the persistence collaborator; `user_id`/`session_id`/timestamp are
identity columns not relevant to the claims). -/
structure SaveRecord where
  product : String
  quantity : Int
  status : String
  order_group : String
deriving DecidableEq, Repr

/-- The mutable fields of an `OrderSession`.  `products_db` is the pristine
per-session copy taken by `__init__`, `current_db` the working catalog,
`saved` the rows inserted by `_save_final_orders` so far, `message_queue`
the FIFO of queued bot messages and `active_timer` the armed callback, if
any.  `session_id`, `user_id` and the wall-clock field `last_activity` are
not modelled (they never influence the claims). -/
structure OrderSession where
  products_db : List (String × Int)
  current_db : List (String × Int)
  confirmed_orders : List (List (String × Int))
  pending_orders : List (List (String × Int))
  state : String
  reminder_count : Nat
  message_queue : List String
  active_timer : Option TimerKind
  waiting_for_option : Bool
  saved : List SaveRecord
deriving DecidableEq, Repr

/-- `OrderSession.__init__`: both catalogs are deep copies of the module
catalog (in `app.py` always the global `products_db`; kept as a parameter so
that the state-machine theorems quantify over it). -/
def newOrderSession (db : List (String × Int)) : OrderSession :=
  ⟨db, db, [], [], "waiting_for_next", 0, [], none, false, []⟩

/-- `_save_final_orders(orders_list, status, order_group)`: one row per
product with positive quantity, in order. -/
def _save_final_orders (s : OrderSession) (orders_list : List (List (String × Int)))
    (status : String) (order_group : String) : OrderSession :=
  let rows := orders_list.flatMap
    (fun order => (order.filter (fun e => e.2 > 0)).map
      (fun e => SaveRecord.mk e.1 e.2 status order_group))
  { s with saved := s.saved ++ rows }

/-- `has_items()`. -/
def has_items (s : OrderSession) : Bool :=
  s.current_db.any (fun e => e.2 > 0)

/-- `get_current_orders()`: the dict of positive-quantity entries, in
catalog order (Python dict preserves insertion order). -/
def get_current_orders (s : OrderSession) : List (String × Int) :=
  s.current_db.filter (fun e => e.2 > 0)

/-- `_cancel_timer()`. -/
def _cancel_timer (s : OrderSession) : OrderSession :=
  { s with active_timer := none }

/-- `_start_inactivity_timer()`: cancel, then arm the summary callback. -/
def _start_inactivity_timer (s : OrderSession) : OrderSession :=
  { _cancel_timer s with active_timer := some TimerKind.summary }

/-- `_start_reminder_cycle()`: `reminder_count = 1`, cancel, arm reminder. -/
def _start_reminder_cycle (s : OrderSession) : OrderSession :=
  { _cancel_timer { s with reminder_count := 1 } with
      active_timer := some TimerKind.reminder }

/-- `_reset_current()`: fresh copy of the pristine catalog, state
`collecting`, reminder count 0, timer cancelled. -/
def _reset_current (s : OrderSession) : OrderSession :=
  _cancel_timer { s with
    current_db := s.products_db
    state := "collecting"
    reminder_count := 0 }

/-- `start_new_conversation()`: reset everything, go to `waiting_for_next`,
and queue the restart notice. -/
def start_new_conversation (s : OrderSession) : OrderSession :=
  let s := _cancel_timer { s with
    current_db := s.products_db
    state := "waiting_for_next"
    reminder_count := 0
    waiting_for_option := false }
  { s with message_queue := s.message_queue ++ ["\u00F0\u0178\u201D\u201E **Conversa reiniciada!**"] }

/-- `add_item(parsed_orders)`: merge each line into the first catalog entry
with the same product name, then go to `collecting` and re-arm the
inactivity timer. -/
def add_to_first (db : List (String × Int)) (name : String) (q : Nat) : List (String × Int) :=
  match db with
  | [] => []
  | e :: rest => if e.1 = name then (e.1, e.2 + (q : Int)) :: rest else e :: add_to_first rest name q

/-- `add_item(parsed_orders)` from `app.py`. -/
def add_item (s : OrderSession) (parsed_orders : List ParsedLine) : OrderSession :=
  let merged := parsed_orders.foldl (fun db o => add_to_first db o.product o.qty) s.current_db
  _start_inactivity_timer { s with current_db := merged, state := "collecting" }

/-- `reset_cycle(parsed_orders)` from `app.py`. -/
def reset_cycle (s : OrderSession) (parsed_orders : List ParsedLine) : OrderSession :=
  let s := _cancel_timer s
  let merged := parsed_orders.foldl (fun db o => add_to_first db o.product o.qty) s.current_db
  _start_inactivity_timer
    { s with current_db := merged, state := "collecting", reminder_count := 0 }

/-- `_build_summary()`. -/
def _build_summary (s : OrderSession) : String :=
  let header := "\u00F0\u0178\u201C\u2039 **RESUMO DO SEU PEDIDO:**\n"
  let body := String.join ((get_current_orders s).filter (fun e => e.2 > 0) |>.map
    (fun e => "\u00E2\u20AC\u00A2 " ++ e.1 ++ ": " ++ toString e.2 ++ "\n"))
  header ++ body ++
    "\n\u00E2\u0161 \u00EF\u00B8 **Confirma o pedido?** (responda com \x27confirmar\x27 ou \x27nao\x27)"

/-- `_send_summary()` (the inactivity-timer callback body). -/
def _send_summary (s : OrderSession) : OrderSession :=
  if s.state = "collecting" ∧ has_items s then
    let s := { s with state := "confirming", reminder_count := 0 }
    let s := { s with message_queue := s.message_queue ++ [_build_summary s] }
    _start_reminder_cycle s
  else if s.state = "collecting" then _start_inactivity_timer s
  else s

/-- `_mark_as_pending()`: persist the current positive quantities as an
auto-confirmed group under `auto_<timestamp>_<random>`, queue the yellow
notice, reset, and return to `waiting_for_next`.  The wall-clock timestamp
suffix and the random part are modelled as parameters. -/
def _mark_as_pending (timestamp random_part : String) (s : OrderSession) : OrderSession :=
  if has_items s then
    let auto_order := get_current_orders s
    let order_group_id := "auto_" ++ timestamp ++ "_" ++ random_part
    let s := _save_final_orders s [auto_order] "auto_confirmed" order_group_id
    let s := { s with message_queue := s.message_queue ++
      ["\u00F0\u0178\u0178\u00A1 **PEDIDO CONFIRMADO AUTOMATICAMENTE** - O pedido foi salvo e aguarda sua confirma\u00C3\u00A7\u00C3\u00A3o final na barra lateral."] }
    let s := _reset_current s
    { s with state := "waiting_for_next" }
  else s

/-- `_send_reminder()` (the reminder-timer callback body): while in
`confirming` with `reminder_count <= 5`, queue the tagged summary; on the
fifth reminder auto-confirm via `_mark_as_pending`, otherwise increment and
re-arm. -/
def _send_reminder (timestamp random_part : String) (s : OrderSession) : OrderSession :=
  if s.state = "confirming" ∧ s.reminder_count ≤ 5 then
    let summary := _build_summary s
    let s := { s with message_queue := s.message_queue ++
      ["\u00F0\u0178\u201D\u201D **LEMBRETE (" ++ toString s.reminder_count ++ "/5):**\n" ++ summary] }
    if s.reminder_count = 5 then _mark_as_pending timestamp random_part s
    else
      { _cancel_timer { s with reminder_count := s.reminder_count + 1 } with
          active_timer := some TimerKind.reminder }
  else s

/-- `_check_cancel_command(message_lower)`: the source's list is
`['cancelar', 'hoje nÃ£o', 'hoje nao']` — the middle entry is the
double-encoded (mojibake) form actually present in the file. -/
def _check_cancel_command (message_lower : String) : Bool :=
  ["cancelar", "hoje n\u00C3\u00A3o", "hoje nao"].any
    (fun command => containsSub command.data message_lower.data)

/-- The result dict of `process_message` (`success`, optional `message`). -/
structure PMResult where
  success : Bool
  message : Option String
deriving DecidableEq, Repr

/-- `any(word in message_lower.split() for word in vocab)`. -/
def anyWordIn (vocab : List String) (message_lower : String) : Bool :=
  vocab.any (fun word => (splitWs message_lower.data).contains word)

/-- `process_message(message)` from `app.py`: the full state dispatch.
Returns `none` exactly where the Python would raise, i.e. when a branch
calls `parse_order_interactive` with an empty catalog (never the case for
real sessions).  The `last_activity` timestamp update is not modelled. -/
def process_message (s : OrderSession) (message : String) :
    Option (OrderSession × PMResult) :=
  let message_lower := String.mk (pyStrip (message.data.map pyLowerChar))
  if _check_cancel_command message_lower then
    some (start_new_conversation s, ⟨true, none⟩)
  else if s.state = "waiting_for_next" then
    some ({ s with state := "option", waiting_for_option := true },
      ⟨true, some "\u00F0\u0178\u201D\u201E **Conversa reiniciada!**\n\nVoc\u00C3\u00AA quer pedir(1) ou falar com o gerente(2)?"⟩)
  else if s.state = "option" ∧ s.waiting_for_option then
    if message_lower = "1" then
      some (_start_inactivity_timer { s with waiting_for_option := false, state := "collecting" },
        ⟨true, some "\u00C3\u201Ctimo! Digite seus pedidos. Ex: \x272 mangas e 3 queijos\x27"⟩)
    else if message_lower = "2" then
      some ({ s with waiting_for_option := false, state := "waiting_for_next" },
        ⟨true, some "Ok ent\u00C3\u00A3o."⟩)
    else
      some (s, ⟨false,
        some "Por favor, escolha uma op\u00C3\u00A7\u00C3\u00A3o: 1 para pedir ou 2 para falar com o gerente."⟩)
  else if s.state = "pending_confirmation" then
    if anyWordIn ["confirmar", "sim", "s"] message_lower then
      if !s.pending_orders.isEmpty then
        let s1 := { s with confirmed_orders := s.confirmed_orders ++ s.pending_orders }
        let s2 := _save_final_orders s1 s1.pending_orders "confirmed" "main"
        let pending_count := s2.pending_orders.length
        let s3 := _start_inactivity_timer
          { s2 with pending_orders := [], state := "collecting" }
        some (s3, ⟨true, some ("\u00E2\u0153\u2026 **PEDIDO PENDENTE CONFIRMADO!** " ++
          toString pending_count ++ " pedido(s) adicionado(s) \u00C3  lista.")⟩)
      else if anyWordIn ["cancelar", "nao", "nÃ£o", "n"] message_lower then
        let s1 := _start_inactivity_timer
          { s with pending_orders := [], state := "collecting" }
        some (s1, ⟨true, some "\u00F0\u0178\u201D\u201E Pedidos pendentes cancelados. Continue adicionando itens."⟩)
      else
        some (s, ⟨false,
          some "\u00E2\u0152 Por favor, confirme ou cancele o pedido pendente. Digite \x27confirmar\x27 para confirmar ou \x27cancelar\x27 para cancelar."⟩)
    else
      let s1 := _start_inactivity_timer { s with state := "collecting" }
      match parse_order_interactive message s1.current_db with
      | none => none
      | some (parsed_orders, updated_db) =>
        let s2 := { s1 with current_db := updated_db }
        if !parsed_orders.isEmpty then some (s2, ⟨true, none⟩)
        else some (s2, ⟨true,
          some "\u00E2\u0152 Nenhum item reconhecido. Tente usar termos como \x272 mangas\x27, \x27cinco queijos\x27, etc."⟩)
  else if s.state = "confirming" then
    if anyWordIn ["confirmar", "sim", "s"] message_lower then
      let s1 := _cancel_timer s
      let confirmed_order := get_current_orders s1
      let s2 := { s1 with confirmed_orders := s1.confirmed_orders ++ [confirmed_order] }
      let s3 := _save_final_orders s2 [confirmed_order] "confirmed" "main"
      let s4 := _reset_current s3
      let response := "\u00E2\u0153\u2026 **PEDIDO CONFIRMADO COM SUCESSO!**\n\n**Itens confirmados:**\n" ++
        String.join ((confirmed_order.filter (fun e => e.2 > 0)).map
          (fun e => "\u00E2\u20AC\u00A2 " ++ toString e.2 ++ "x " ++ e.1 ++ "\n")) ++
        "\nObrigado pelo pedido! \u00F0\u0178\u017D\u2030"
      some (s4, ⟨true, some response⟩)
    else if anyWordIn ["nao", "nÃ£o", "n"] message_lower then
      let s1 := _start_inactivity_timer (_reset_current (_cancel_timer s))
      some (s1, ⟨true, some "\u00F0\u0178\u201D\u201E **Lista limpa!** Digite novos itens."⟩)
    else
      match parse_order_interactive message s.current_db with
      | none => none
      | some (parsed_orders, updated_db) =>
        if !parsed_orders.isEmpty then
          let s1 := _cancel_timer { s with current_db := updated_db }
          let s2 := _start_inactivity_timer
            { s1 with state := "collecting", reminder_count := 0 }
          some (s2, ⟨true, none⟩)
        else
          some (s, ⟨false,
            some "\u00E2\u0152 Item n\u00C3\u00A3o reconhecido. Digite \x27confirmar\x27 para confirmar ou \x27nao\x27 para cancelar."⟩)
  else if s.state = "collecting" then
    if message_lower = "pronto" ∨ message_lower = "confirmar" then
      if has_items s then
        some (_send_summary s, ⟨true, some "\u00F0\u0178\u201C\u2039 Preparando seu resumo..."⟩)
      else
        some (s, ⟨false, some "\u00E2\u0152 Lista vazia. Adicione itens primeiro."⟩)
    else
      match parse_order_interactive message s.current_db with
      | none => none
      | some (parsed_orders, updated_db) =>
        let s1 := { s with current_db := updated_db }
        if !parsed_orders.isEmpty then
          some (_start_inactivity_timer s1, ⟨true, none⟩)
        else
          some (_start_inactivity_timer s1, ⟨false,
            some "\u00E2\u0152 Nenhum item reconhecido. Tente usar termos como \x272 mangas\x27, \x27cinco queijos\x27, etc."⟩)
  else
    some (s, ⟨false, some "Estado n\u00C3\u00A3o reconhecido. Digite \x27cancelar\x27 para reiniciar."⟩)

/-- C6: `similarity_percentage` is symmetric, reflexive at 100 (the
distance of a string to itself is 0, so the score is 100 whether or not the
normalized string is empty), and two empty strings are 100% similar. -/
theorem similarity_percentage_symm_refl :
    (∀ a b : String, similarity_percentage a b = similarity_percentage b a) ∧
    (∀ x : String, similarity_percentage x x = 100) ∧
    similarity_percentage "" "" = 100 := by
  refine ⟨fun a b => ?_, fun x => ?_, by rfl⟩
  · unfold similarity_percentage
    dsimp only
    rw [levenshtein_distance_comm, Nat.max_comm]
  · unfold similarity_percentage
    dsimp only
    rw [levenshtein_distance_self, Nat.max_self]
    split
    · rfl
    · norm_num

/-- C1: parsing `"dois mangas e tres queijos"` against a catalog holding
`manga` and `queijo` at quantity 0 yields exactly the two lines
`manga × 2` and `queijo × 3`, both with similarity score at least 80, and
the returned working catalog has both quantities merged in. -/
theorem parse_dois_mangas_tres_queijos :
    parse_order_interactive "dois mangas e tres queijos" [("manga", 0), ("queijo", 0)] =
      some ([⟨"manga", 2, 8333 / 100⟩, ⟨"queijo", 3, 8571 / 100⟩],
        [("manga", 2), ("queijo", 3)]) ∧
    (8333 : ℚ) / 100 ≥ 80 ∧ (8571 : ℚ) / 100 ≥ 80 := by
  refine ⟨by decide, by norm_num, by norm_num⟩

/-- C10: the digit token `"0"` and the word `"zero"` behave asymmetrically:
`"0 manga"` extracts the number 0 at position 0 and the committed line gets
quantity 0 (running total unchanged), while in `"zero manga"` the word run
parses to 0 and is discarded (`parse_number_words` returns `None`), so no
number is extracted and the line gets the default quantity 1. -/
theorem zero_digit_vs_zero_word :
    parse_order_interactive "0 manga" [("manga", 0)] =
      some ([⟨"manga", 0, 100⟩], [("manga", 0)]) ∧
    parse_order_interactive "zero manga" [("manga", 0)] =
      some ([⟨"manga", 1, 100⟩], [("manga", 1)]) ∧
    extract_numbers_and_positions ["0", "manga"] = [(0, 0)] ∧
    extract_numbers_and_positions ["zero", "manga"] = [] ∧
    parse_number_words ["zero"] = none := by
  refine ⟨by decide, by decide, by decide, by decide, by decide⟩

/-- C4: against the program's own catalog, `"vinte e cinco lim\u00F5es"`
yields no parsed line at all: 25 is extracted from the number-word run, but
the catalog's lemon entry is the double-encoded literal `limÃ£o`, which
normalizes to `lima£o` and scores exactly 50 against `limoes` — below the
80 threshold and not strictly above the 50 fallback bar, so nothing is
committed and the working catalog is returned unchanged. -/
theorem vinte_e_cinco_limoes_yields_nothing :
    parse_order_interactive "vinte e cinco lim\u00F5es" products_db =
      some ([], products_db) ∧
    extract_numbers_and_positions ["vinte", "e", "cinco", "limoes"] = [(0, 25)] ∧
    similarity_percentage "limoes" "lim\u00C3\u00A3o" = 50 := by
  refine ⟨by decide, by decide, by decide⟩

/-- C5 counterexample: in `"2 mangas queijos"` the single extracted number
(2 at position 0) is consumed by `manga`; for `queijo` the positional rules
again choose position 0, which is already used, and since every extracted
number is used the code keeps the already-used number's value — the line
gets quantity 2, not the default 1 that the claim asserts. -/
theorem used_number_kept_not_defaulted :
    parse_order_interactive "2 mangas queijos" [("manga", 0), ("queijo", 0)] =
      some ([⟨"manga", 2, 8333 / 100⟩, ⟨"queijo", 2, 8571 / 100⟩],
        [("manga", 2), ("queijo", 2)]) ∧
    (parse_order_interactive "2 mangas queijos" [("manga", 0), ("queijo", 0)]).map
        (fun rp => rp.1.map (fun l => l.qty)) ≠ some [2, 1] := by
  refine ⟨by decide, by decide⟩

theorem find_first_unused_of_prefix_used (used : List Nat) :
    ∀ (l₁ : List (Nat × Nat)) (e : Nat × Nat) (l₂ : List (Nat × Nat)),
      (∀ e' ∈ l₁, used.contains e'.1 = true) → used.contains e.1 = false →
      (l₁ ++ e :: l₂).find? (fun x => !used.contains x.1) = some e := by
  intro l₁
  induction l₁ with
  | nil =>
    intro e l₂ _ he
    have hte : (!(used.contains e.1)) = true := by rw [he]; rfl
    rw [List.nil_append]
    simp only [List.find?, hte]
  | cons a l₁ ih =>
    intro e l₂ hall he
    have ha : used.contains a.1 = true := hall a (by simp)
    have hfa : (!(used.contains a.1)) = false := by rw [ha]; rfl
    rw [List.cons_append]
    simp only [List.find?, hfa]
    exact ih e l₂ (fun e' h => hall e' (by simp [h])) he

/-- C5 (amended): when the position chosen by the positional rules is
already used, the committed quantity is the first extracted number (in
position order) whose position is unused; when every extracted number's
position is already used, the original (already-used) choice is kept
unchanged — there is no fall-back to the default quantity 1. -/
theorem reassign_used_number (numbers : List (Nat × Nat)) (used : List Nat) (q p : Nat)
    (hp : used.contains p = true) :
    ((∀ e ∈ numbers, used.contains e.1 = true) →
      reassignNumber numbers used q (some p) = (q, some p)) ∧
    (∀ (l₁ : List (Nat × Nat)) (e : Nat × Nat) (l₂ : List (Nat × Nat)),
      numbers = l₁ ++ e :: l₂ →
      (∀ e' ∈ l₁, used.contains e'.1 = true) → used.contains e.1 = false →
      reassignNumber numbers used q (some p) = (e.2, some e.1)) := by
  constructor
  · intro hall
    have hfind : numbers.find? (fun e => !used.contains e.1) = none := by
      rw [List.find?_eq_none]
      intro x hx
      show ¬ ((!(used.contains x.1)) = true)
      rw [hall x hx]
      simp
    simp only [reassignNumber, hp, if_true, hfind]
  · intro l₁ e l₂ hsplit hall he
    simp only [reassignNumber, hp, if_true, hsplit,
      find_first_unused_of_prefix_used used l₁ e l₂ hall he]

/-- C5 amended-claim witness: a concrete instance of each branch of
`reassign_used_number`. -/
theorem reassign_used_number_witness :
    reassignNumber [(0, 2)] [0] 2 (some 0) = (2, some 0) ∧
    reassignNumber [(0, 2), (3, 7)] [0] 2 (some 0) = (7, some 3) := by
  constructor
  · exact (reassign_used_number [(0, 2)] [0] 2 0 (by decide)).1 (by decide)
  · exact (reassign_used_number [(0, 2), (3, 7)] [0] 2 0 (by decide)).2
      [(0, 2)] (3, 7) [] rfl (by decide) (by decide)

/-- C9 counterexample: for the empty catalog the source raises
(`max()` over an empty sequence), for any message including the empty one —
it does not return an empty line list with an unchanged catalog. -/
theorem parse_empty_catalog_raises :
    parse_order_interactive "" [] = none ∧
    parse_order_interactive "" [] ≠ some ([], []) := by
  refine ⟨by decide, by decide⟩

/-- C9 (amended): for every nonempty catalog `parse_order_interactive`
returns normally (the input catalog value itself is never mutated — the
returned working catalog is a value copy with merges applied), and for the
empty message it returns no lines together with a working catalog equal to
the input.  For the empty catalog the Python raises `ValueError`. -/
theorem parse_returns_copy_and_empty_message (message : String)
    (db : List (String × Int)) (hdb : db ≠ []) :
    (parse_order_interactive message db).isSome = true ∧
    parse_order_interactive "" db = some ([], db) := by
  obtain ⟨d, ds, rfl⟩ : ∃ d ds, db = d :: ds := by
    cases db with
    | nil => exact absurd rfl hdb
    | cons d ds => exact ⟨d, ds, rfl⟩
  constructor
  · unfold parse_order_interactive
    simp
  · unfold parse_order_interactive
    dsimp only
    simp [splitWs, splitWsAux, separate_numbers_and_words, collapseWs, collapseWsGo,
      pyStrip, punctToSpace, normalize, sortByKeyDesc, extract_numbers_and_positions,
      extractLoop, protected_teens, replaceSub, replaceSubGo, wrapWord, parseLoop]

/-- C9 amended-claim witness at a concrete nonempty catalog. -/
theorem parse_returns_copy_witness :
    (parse_order_interactive "abc" [("manga", 0)]).isSome = true ∧
    parse_order_interactive "" [("manga", 0)] = some ([], [("manga", 0)]) :=
  parse_returns_copy_and_empty_message "abc" [("manga", 0)] (by decide)

theorem updAdd_nonneg (db : List (String × Int)) :
    ∀ (idx q : Nat), (∀ e ∈ db, 0 ≤ e.2) → ∀ e ∈ updAdd db idx q, 0 ≤ e.2 := by
  induction db with
  | nil => intro idx q h e he; simp [updAdd] at he
  | cons a rest ihd =>
    intro idx q h e he
    cases idx with
    | zero =>
      simp only [updAdd] at he
      rcases List.mem_cons.mp he with rfl | hmem
      · have ha := h a (List.mem_cons_self a rest)
        simp only []
        omega
      · exact h e (List.mem_cons_of_mem _ hmem)
    | succ n =>
      simp only [updAdd] at he
      rcases List.mem_cons.mp he with rfl | hmem
      · exact h e (List.mem_cons_self _ _)
      · exact ihd n q (fun x hx => h x (List.mem_cons_of_mem _ hx)) e hmem

theorem add_to_first_nonneg (name : String) (q : Nat) :
    ∀ (db : List (String × Int)), (∀ e ∈ db, 0 ≤ e.2) →
      ∀ e ∈ add_to_first db name q, 0 ≤ e.2 := by
  intro db
  induction db with
  | nil => intro h e he; simp [add_to_first] at he
  | cons a rest ihd =>
    intro h e he
    by_cases ha : a.1 = name
    · simp only [add_to_first, if_pos ha] at he
      rcases List.mem_cons.mp he with rfl | hmem
      · have := h a (List.mem_cons_self a rest)
        simp only []
        omega
      · exact h e (List.mem_cons_of_mem _ hmem)
    · simp only [add_to_first, if_neg ha] at he
      rcases List.mem_cons.mp he with rfl | hmem
      · exact h e (List.mem_cons_self _ _)
      · exact ihd (fun x hx => h x (List.mem_cons_of_mem _ hx)) e hmem

theorem foldl_add_to_first_nonneg (parsed : List ParsedLine) :
    ∀ (db : List (String × Int)), (∀ e ∈ db, 0 ≤ e.2) →
      ∀ e ∈ parsed.foldl (fun db o => add_to_first db o.product o.qty) db, 0 ≤ e.2 := by
  induction parsed with
  | nil => intro db h; simpa using h
  | cons o rest ih =>
    intro db h
    rw [List.foldl_cons]
    exact ih (add_to_first db o.product o.qty) (add_to_first_nonneg o.product o.qty db h)

theorem parseLoop_nonneg (ctx : ParseCtx) :
    ∀ (fuel i : Nat) (up un : List Nat) (wdb : List (String × Int)) (po : List ParsedLine),
      (∀ e ∈ wdb, 0 ≤ e.2) → ∀ e ∈ (parseLoop ctx fuel i up un wdb po).2, 0 ≤ e.2 := by
  intro fuel
  induction fuel with
  | zero => intro i up un wdb po hw; simpa [parseLoop] using hw
  | succ fuel ih =>
    intro i up un wdb po hw
    rw [parseLoop]
    dsimp only
    split
    · split
      · exact ih _ _ _ _ _ hw
      · split
        · exact ih _ _ _ _ _ hw
        · split
          · exact ih _ _ _ _ _ (updAdd_nonneg _ _ _ hw)
          · split
            · split
              · exact ih _ _ _ _ _ (updAdd_nonneg _ _ _ hw)
              · exact ih _ _ _ _ _ hw
            · exact ih _ _ _ _ _ hw
    · simpa using hw

/-- C7: working-catalog quantities never go negative: the scanning pass of
`parse_order_interactive` only ever adds extracted (natural) quantities to a
working-catalog entry; `add_item` and `reset_cycle` only add parsed
(natural) quantities; and `_reset_current` replaces the working catalog by
the session's pristine catalog.  Quantities are zeroed only by that full
reset. -/
theorem working_quantities_nonneg :
    (∀ (message : String) (db : List (String × Int))
        (r : List ParsedLine × List (String × Int)),
      parse_order_interactive message db = some r →
      (∀ e ∈ db, 0 ≤ e.2) → ∀ e ∈ r.2, 0 ≤ e.2) ∧
    (∀ (s : OrderSession) (parsed : List ParsedLine),
      (∀ e ∈ s.current_db, 0 ≤ e.2) → ∀ e ∈ (add_item s parsed).current_db, 0 ≤ e.2) ∧
    (∀ (s : OrderSession) (parsed : List ParsedLine),
      (∀ e ∈ s.current_db, 0 ≤ e.2) → ∀ e ∈ (reset_cycle s parsed).current_db, 0 ≤ e.2) ∧
    (∀ s : OrderSession, (∀ e ∈ s.products_db, 0 ≤ e.2) →
      ∀ e ∈ (_reset_current s).current_db, 0 ≤ e.2) := by
  refine ⟨?_, ?_, ?_, ?_⟩
  · intro message db r hr h
    unfold parse_order_interactive at hr
    dsimp only at hr
    cases hmap : List.map Prod.fst db with
    | nil => rw [hmap] at hr; exact absurd hr (by simp)
    | cons d ds =>
      rw [hmap] at hr
      dsimp only at hr
      injection hr with h2
      rw [← h2]
      exact parseLoop_nonneg _ _ _ _ _ _ _ h
  · intro s parsed h
    simp only [add_item, _start_inactivity_timer, _cancel_timer]
    exact foldl_add_to_first_nonneg parsed s.current_db h
  · intro s parsed h
    simp only [reset_cycle, _start_inactivity_timer, _cancel_timer]
    exact foldl_add_to_first_nonneg parsed s.current_db h
  · intro s h
    simp only [_reset_current, _cancel_timer]
    exact h

/-- C7 witness: the preservation theorem applied at a concrete message and
catalog. -/
theorem working_quantities_nonneg_witness :
    ∃ r, parse_order_interactive "dois mangas" [("manga", 0)] = some r ∧
      ∀ e ∈ r.2, 0 ≤ e.2 := by
  have hp : parse_order_interactive "dois mangas" [("manga", 0)] =
      some ([⟨"manga", 2, 8333 / 100⟩], [("manga", 2)]) := by decide
  exact ⟨_, hp, working_quantities_nonneg.1 "dois mangas" [("manga", 0)] _ hp (by decide)⟩

/-- `_check_cancel_command` applied to the literal `"hoje não"` as a user
would type it (with the real `ã`): the source list's middle entry is the
mojibake `hoje nÃ£o`, which after `.lower()` can never occur in a
lowered message, so the phrase is not recognized. -/
theorem hoje_nao_not_cancelled :
    _check_cancel_command "hoje não" = false ∧
    process_message
        ⟨[("manga", 0)], [("manga", 2)], [], [], "collecting", 0, [], none, false, []⟩
        "hoje não" =
      some (⟨[("manga", 0)], [("manga", 2)], [], [], "collecting", 0, [],
          some TimerKind.summary, false, []⟩,
        ⟨false, some "âŒ Nenhum item reconhecido. Tente usar termos como \x272 mangas\x27, \x27cinco queijos\x27, etc."⟩) ∧
    (process_message
        ⟨[("manga", 0)], [("manga", 2)], [], [], "collecting", 0, [], none, false, []⟩
        "hoje não").map (fun rp => rp.1.state) ≠ some "waiting_for_next" ∧
    process_message
        ⟨[("manga", 0)], [("manga", 2)], [], [], "collecting", 0, [], none, false, []⟩
        "cancelar" =
      some (⟨[("manga", 0)], [("manga", 0)], [], [], "waiting_for_next", 0,
          ["ðŸ”„ **Conversa reiniciada!**"], none, false, []⟩,
        ⟨true, none⟩) := by
  refine ⟨by decide, by decide, by decide, by decide⟩

def fire5 (t r : String) (s : OrderSession) : OrderSession :=
  _send_reminder t r (_send_reminder t r (_send_reminder t r
    (_send_reminder t r (_send_reminder t r s))))

/-- C2: from `confirming` with reminder count 1 and at least one positive
working quantity, five consecutive reminder firings auto-confirm: the state
becomes `waiting_for_next`, the working catalog is reset to the (all-zero)
pristine catalog, the positive rows are persisted with status
`auto_confirmed` under the fresh group `auto_<t>_<r>` (never `"main"`),
something was really persisted, the yellow-flag notice is queued, and no
timer stays armed. -/
theorem reminder_exhaustion_auto_confirms (pdb cdb : List (String × Int))
    (co po : List (List (String × Int))) (mq : List String)
    (tim : Option TimerKind) (w : Bool) (sv : List SaveRecord)
    (t r : String) (s0 : OrderSession)
    (hs0 : s0 = ⟨pdb, cdb, co, po, "confirming", 1, mq, tim, w, sv⟩)
    (hitems : cdb.any (fun e => e.2 > 0) = true)
    (hzero : ∀ e ∈ pdb, e.2 = 0) :
    (fire5 t r s0).state = "waiting_for_next" ∧
    (∀ e ∈ (fire5 t r s0).current_db, e.2 = 0) ∧
    (fire5 t r s0).saved =
      sv ++ (cdb.filter (fun e => e.2 > 0)).map
        (fun e => SaveRecord.mk e.1 e.2 "auto_confirmed" ("auto_" ++ t ++ "_" ++ r)) ∧
    (fire5 t r s0).saved ≠ sv ∧
    ("auto_" ++ t ++ "_" ++ r) ≠ "main" ∧
    "ðŸŸ¡ **PEDIDO CONFIRMADO AUTOMATICAMENTE** - O pedido foi salvo e aguarda sua confirmaÃ§Ã£o final na barra lateral." ∈ (fire5 t r s0).message_queue ∧
    (fire5 t r s0).active_timer = none := by
  subst hs0
  refine ⟨?_, ?_, ?_, ?_, ?_, ?_, ?_⟩
  · simp [fire5, _send_reminder, _mark_as_pending, _save_final_orders, _reset_current,
      _cancel_timer, get_current_orders, has_items, hitems]
  · simpa [fire5, _send_reminder, _mark_as_pending, _save_final_orders, _reset_current,
      _cancel_timer, get_current_orders, has_items, hitems] using hzero
  · simp [fire5, _send_reminder, _mark_as_pending, _save_final_orders, _reset_current,
      _cancel_timer, get_current_orders, has_items, hitems, List.filter_filter]
  · have h3 : (fire5 t r
        (⟨pdb, cdb, co, po, "confirming", 1, mq, tim, w, sv⟩ : OrderSession)).saved =
        sv ++ (cdb.filter (fun e => e.2 > 0)).map
          (fun e => SaveRecord.mk e.1 e.2 "auto_confirmed" ("auto_" ++ t ++ "_" ++ r)) := by
      simp [fire5, _send_reminder, _mark_as_pending, _save_final_orders, _reset_current,
        _cancel_timer, get_current_orders, has_items, hitems, List.filter_filter]
    rw [h3]
    rw [List.any_eq_true] at hitems
    obtain ⟨x, hx, hpx⟩ := hitems
    have hmem : x ∈ cdb.filter (fun e => e.2 > 0) := List.mem_filter.mpr ⟨hx, hpx⟩
    intro heq
    have hlen := congrArg List.length heq
    rw [List.length_append, List.length_map] at hlen
    have h0 : (cdb.filter (fun e => e.2 > 0)).length = 0 := by omega
    rw [List.length_eq_zero] at h0
    rw [h0] at hmem
    simp at hmem
  · intro h
    have hlen := congrArg String.length h
    rw [String.length_append, String.length_append, String.length_append] at hlen
    have h1 : ("auto_" : String).length = 5 := by decide
    have h2 : ("_" : String).length = 1 := by decide
    have h3 : ("main" : String).length = 4 := by decide
    omega
  · simp [fire5, _send_reminder, _mark_as_pending, _save_final_orders, _reset_current,
      _cancel_timer, get_current_orders, has_items, hitems]
  · simp [fire5, _send_reminder, _mark_as_pending, _save_final_orders, _reset_current,
      _cancel_timer, get_current_orders, has_items, hitems]

def w2Session : OrderSession :=
  ⟨[("manga", 0)], [("manga", 3)], [], [], "confirming", 1, [], none, false, []⟩

/-- C2 witness: the exhaustion theorem at a one-product session. -/
theorem reminder_exhaustion_witness :
    (fire5 "123456" "abcdef" w2Session).state = "waiting_for_next" ∧
    (∀ e ∈ (fire5 "123456" "abcdef" w2Session).current_db, e.2 = 0) ∧
    (fire5 "123456" "abcdef" w2Session).saved =
      [] ++ (([("manga", 3)] : List (String × Int)).filter (fun e => e.2 > 0)).map
        (fun e => SaveRecord.mk e.1 e.2 "auto_confirmed"
          ("auto_" ++ "123456" ++ "_" ++ "abcdef")) ∧
    (fire5 "123456" "abcdef" w2Session).saved ≠ [] ∧
    ("auto_" ++ "123456" ++ "_" ++ "abcdef") ≠ "main" ∧
    "ðŸŸ¡ **PEDIDO CONFIRMADO AUTOMATICAMENTE** - O pedido foi salvo e aguarda sua confirmaÃ§Ã£o final na barra lateral." ∈ (fire5 "123456" "abcdef" w2Session).message_queue ∧
    (fire5 "123456" "abcdef" w2Session).active_timer = none :=
  reminder_exhaustion_auto_confirms [("manga", 0)] [("manga", 3)] [] [] [] none false []
    "123456" "abcdef" w2Session rfl (by decide) (by decide)

theorem send_summary_confirmed (s : OrderSession) :
    (_send_summary s).confirmed_orders = s.confirmed_orders := by
  unfold _send_summary
  split
  · rfl
  · split
    · rfl
    · rfl

theorem process_message_confirmed_monotone (s : OrderSession) (m : String)
    (rp : OrderSession × PMResult) (h : process_message s m = some rp) :
    s.confirmed_orders <+: rp.1.confirmed_orders := by
  unfold process_message at h
  dsimp only at h
  repeat' (first | split at h | dsimp only at h)
  all_goals (try exact Option.noConfusion h)
  all_goals
    (injection h with h2
     subst h2
     simp only [start_new_conversation, _start_inactivity_timer, _start_reminder_cycle,
       _save_final_orders, _cancel_timer, _reset_current, send_summary_confirmed]
     first
     | exact List.prefix_rfl
     | exact List.prefix_append _ _)

/-- C8 counterexample: in state `confirming` with an all-zero working
catalog, the confirmation message is accepted (`success = true`) and an
empty confirmed order `[]` is appended to the history — it is not rejected
as the claim asserts. -/
theorem empty_confirm_accepted :
    (process_message
        ⟨[("manga", 0)], [("manga", 0)], [], [], "confirming", 1, [],
          some TimerKind.reminder, false, []⟩ "confirmar").map
      (fun rp => (rp.2.success, rp.1.confirmed_orders)) = some (true, [[]]) := by
  decide

/-- C8 (amended): with no positive working quantity, a confirmation
message (`"confirmar"`/`"pronto"`) is rejected in state `collecting`
(`Lista vazia`), in state `option` (choice prompt repeated), and — for
`"confirmar"` — in state `pending_confirmation` with no pending orders;
in states `waiting_for_next` and `confirming` it is *not* rejected.  In
every state, no message ever removes entries from the confirmed-order
history: the previous history is always a prefix of the new one. -/
theorem confirm_with_no_items (s : OrderSession) (msg : String)
    (hmsg : msg = "confirmar" ∨ msg = "pronto")
    (hempty : has_items s = false) :
    (s.state = "collecting" →
      process_message s msg =
        some (s, ⟨false, some "âŒ Lista vazia. Adicione itens primeiro."⟩)) ∧
    (s.state = "option" → s.waiting_for_option = true →
      process_message s msg =
        some (s, ⟨false, some "Por favor, escolha uma opÃ§Ã£o: 1 para pedir ou 2 para falar com o gerente."⟩)) ∧
    (msg = "confirmar" → s.state = "pending_confirmation" → s.pending_orders = [] →
      process_message s msg =
        some (s, ⟨false, some "âŒ Por favor, confirme ou cancele o pedido pendente. Digite \x27confirmar\x27 para confirmar ou \x27cancelar\x27 para cancelar."⟩)) ∧
    (∀ (m : String) (rp : OrderSession × PMResult), process_message s m = some rp →
      s.confirmed_orders <+: rp.1.confirmed_orders) := by
  have hml1 : String.mk (pyStrip (List.map pyLowerChar
      ['c', 'o', 'n', 'f', 'i', 'r', 'm', 'a', 'r'])) = "confirmar" := by decide
  have hml2 : String.mk (pyStrip (List.map pyLowerChar
      ['p', 'r', 'o', 'n', 't', 'o'])) = "pronto" := by decide
  have hc1 : _check_cancel_command "confirmar" = false := by decide
  have hc2 : _check_cancel_command "pronto" = false := by decide
  refine ⟨?_, ?_, ?_, fun m rp h => process_message_confirmed_monotone s m rp h⟩
  · intro hstate
    rcases hmsg with rfl | rfl
    · unfold process_message
      dsimp only
      rw [hml1, hstate]
      simp [hc1, hempty]
    · unfold process_message
      dsimp only
      rw [hml2, hstate]
      simp [hc2, hempty]
  · intro hstate hwopt
    rcases hmsg with rfl | rfl
    · unfold process_message
      dsimp only
      rw [hml1, hstate]
      simp [hc1, hwopt]
    · unfold process_message
      dsimp only
      rw [hml2, hstate]
      simp [hc2, hwopt]
  · intro hmc hstate hpend
    subst hmc
    have ha1 : anyWordIn ["confirmar", "sim", "s"] "confirmar" = true := by decide
    have ha2 : anyWordIn ["cancelar", "nao", "nÃ£o", "n"] "confirmar" = false := by decide
    unfold process_message
    dsimp only
    rw [hml1, hstate, hpend]
    simp [hc1, ha1, ha2]

def c8Session : OrderSession :=
  ⟨[("manga", 0)], [("manga", 0)], [], [], "collecting", 0, [], none, false, []⟩

/-- C8 amended-claim witness: the rejection in `collecting` at a concrete
all-zero session. -/
theorem confirm_with_no_items_witness :
    process_message c8Session "confirmar" =
      some (c8Session, ⟨false, some "âŒ Lista vazia. Adicione itens primeiro."⟩) :=
  (confirm_with_no_items c8Session "confirmar" (Or.inl rfl) (by decide)).1 rfl

end OrderBot
